import Mathlib

/-!
Verification of the SFNT kerning extraction core (GPOS pair-adjustment
parsing, table directory, kerning resolver) of the `font` repository.

The Go source is shallowly embedded: byte buffers are `List Nat` (one
entry per byte), big-endian 16-bit reads are explicit, Go map values are
association lists with insert-at-front / first-match lookup (a later
insert shadows earlier ones, matching Go map overwrite), and
fallible code returns `Except`.  A Go runtime fault (slice index out of
range) is modelled by the distinguished failure `Fail.oob`; a loop that
never terminates is modelled by the distinguished failure `Fail.diverge`
(produced when a fuel bound that is sufficient for every terminating
execution of the source loop runs out).

Modelled from the spec: the `GlyphIndex` type is declared outside the
provided source files.  The spec fixes glyph identifiers as 2-byte
big-endian values with a maximum glyph index, and the source packs a
glyph pair as `uint32(a)<<16 | uint32(b)`; accordingly `GlyphIndex` is a
16-bit unsigned integer and arithmetic on it wraps modulo 2^16.
-/

/-- Big-endian 16-bit read at byte position `p`; `none` models the Go
slice-bounds fault of `be.Uint16(buf[p:])` when fewer than two bytes
remain. -/
def readU16 (buf : List Nat) (p : Nat) : Option Nat :=
  match buf[p]?, buf[p+1]? with
  | some a, some b => some (a * 256 + b)
  | _, _ => none

/-- Reinterpret a 16-bit unsigned value as a signed int16, as Go's
`int16(be.Uint16(...))` does. -/
def toInt16 (n : Nat) : Int :=
  if n % 65536 < 32768 then ((n % 65536 : Nat) : Int) else ((n % 65536 : Nat) : Int) - 65536

/-- Go map insertion `m[k] = v`: insert at the front, so that the most
recent write shadows older entries under first-match lookup. -/
def mapUpd (m : List (Nat × Nat)) (k v : Nat) : List (Nat × Nat) :=
  (k, v) :: m

/-- Go map read `m[k]` with zero default for an absent key. -/
def mapGet (m : List (Nat × Nat)) (k : Nat) : Nat :=
  match m.find? (fun p => p.fst = k) with
  | some p => p.snd
  | none => 0

/-- Go map insertion for the simple kern source `map[uint32]int16`. -/
def mapUpdI (m : List (Nat × Int)) (k : Nat) (v : Int) : List (Nat × Int) :=
  (k, v) :: m

/-- Error values of the kerning core.  `invalidGPOSKern` is
`errInvalidGPOSKern` ("invalid GPOS kerning subtable"), the spec's
InvalidKerningSubtable; `unsupportedClassDefFormat` is
`errUnsupportedClassDefFormat`; `unsupportedCoverageFormat` is the
ad-hoc `fmt.Errorf("unsupported GPOS coverage format %d", format)`;
`missingKerningInformation` is `errors.New("missing GPOS kerning
information")`; `missingTable` is `ErrMissingTable`. -/
inductive KernError where
  | invalidGPOSKern
  | unsupportedClassDefFormat
  | unsupportedCoverageFormat (format : Nat)
  | missingKerningInformation
  | missingTable
  deriving DecidableEq

/-- Failure of an embedded computation: a returned error value, a Go
runtime fault (out-of-bounds slice access), or a non-terminating loop. -/
inductive Fail where
  | kerr (e : KernError)
  | oob
  | diverge
  deriving DecidableEq

abbrev PRes (α : Type) := Except Fail α

/-! ### Coverage decoder (fetchCoverage, fetchCoverageList, fetchCoverageRange) -/

/-- One step-by-step execution of the Go loop
`for i := cr.start; i <= cr.end; i++ { out = append(out, i) }` over the
16-bit glyph index `i`, with `fuel` bounding the number of loop-condition
checks; the increment wraps modulo 2^16 as the uint16 `i++` does. -/
def expandRangeAux : Nat → Nat → Nat → Option (List Nat)
  | 0, _, _ => none
  | fuel + 1, i, e =>
    if i ≤ e then
      match expandRangeAux fuel ((i + 1) % 65536) e with
      | some l => some (i :: l)
      | none => none
    else
      some []

/-- Pointwise expansion of a coverage/class range.  65536 units of fuel
cover every terminating execution of the source loop (at most 65535
iterations plus the final failing check), so `none` holds exactly when
the source loop never terminates. -/
def expandRange (s e : Nat) : Option (List Nat) :=
  expandRangeAux 65536 s e

/-- The source loop expanding the range `[s, e]` runs forever. -/
def expandDiverges (s e : Nat) : Prop :=
  ∀ fuel, expandRangeAux fuel s e = none

/-- Loop of `fetchCoverageList` reading `num` 2-byte glyph ids at
positions `headerSize + 2*i`. -/
def covListLoop (buf : List Nat) : Nat → Nat → Option (List Nat)
  | _, 0 => some []
  | i, k + 1 =>
    match readU16 buf (2 + 2 * i) with
    | none => none
    | some g =>
      match covListLoop buf (i + 1) k with
      | none => none
      | some rest => some (g :: rest)

/-- Coverage Format 1 decoder `fetchCoverageList`. -/
def fetchCoverageList (buf : List Nat) : PRes (List Nat) :=
  if buf.length < 2 then .error (.kerr .invalidGPOSKern)
  else
    match readU16 buf 0 with
    | none => .error .oob
    | some num =>
      if buf.length < 2 + num * 2 then .error (.kerr .invalidGPOSKern)
      else
        match covListLoop buf 0 num with
        | none => .error .oob
        | some out => .ok out

/-- Loop of `fetchCoverageRange` reading `num` range records
(startGlyphID, endGlyphID, startCoverageIndex) at positions
`headerSize + 6*i`. -/
def rangeRecLoop (buf : List Nat) : Nat → Nat → Option (List (Nat × Nat × Nat))
  | _, 0 => some []
  | i, k + 1 =>
    match readU16 buf (2 + 6 * i), readU16 buf (2 + 6 * i + 2), readU16 buf (2 + 6 * i + 4) with
    | some s, some e, some sc =>
      match rangeRecLoop buf (i + 1) k with
      | none => none
      | some rest => some ((s, e, sc) :: rest)
    | _, _, _ => none

/-- Method `coverageRanges.list`: each range expanded pointwise, in declared
order; the stored start-coverage index is carried but never used. -/
def coverageRangesList : List (Nat × Nat × Nat) → Option (List Nat)
  | [] => some []
  | (s, e, _) :: rest =>
    match expandRange s e, coverageRangesList rest with
    | some l, some l2 => some (l ++ l2)
    | _, _ => none

/-- Coverage Format 2 decoder `fetchCoverageRange`. -/
def fetchCoverageRange (buf : List Nat) : PRes (List Nat) :=
  if buf.length < 2 then .error (.kerr .invalidGPOSKern)
  else
    match readU16 buf 0 with
    | none => .error .oob
    | some num =>
      if buf.length < 2 + num * 6 then .error (.kerr .invalidGPOSKern)
      else
        match rangeRecLoop buf 0 num with
        | none => .error .oob
        | some recs =>
          match coverageRangesList recs with
          | none => .error .diverge
          | some out => .ok out

/-- Function `fetchCoverage`: dispatch on the coverage format discriminant. -/
def fetchCoverage (buf : List Nat) (offset : Nat) : PRes (List Nat) :=
  if buf.length < offset + 2 then .error (.kerr .invalidGPOSKern)
  else
    match readU16 (buf.drop offset) 0 with
    | none => .error .oob
    | some format =>
      if format = 1 then fetchCoverageList ((buf.drop offset).drop 2)
      else if format = 2 then fetchCoverageRange ((buf.drop offset).drop 2)
      else .error (.kerr (.unsupportedCoverageFormat format))

/-! ### Class definition decoder (fetchClassLookup and its two formats) -/

/-- Decoded class definitions: the two variants behind the Go `class`
interface (`class1` for ClassDefFormat 1, `class2` for ClassDefFormat 2). -/
inductive ClassDef where
  | fmt1 (startGlyph : Nat) (targetClassIDs : List Nat)
  | fmt2 (records : List (Nat × Nat × Nat))
  deriving DecidableEq

/-- Loop of `fetchClassLookupFormat1` reading `num` 2-byte class ids at
positions `6 + 2*i`. -/
def classValLoop (buf : List Nat) : Nat → Nat → Option (List Nat)
  | _, 0 => some []
  | i, k + 1 =>
    match readU16 buf (6 + 2 * i) with
    | none => none
    | some v =>
      match classValLoop buf (i + 1) k with
      | none => none
      | some rest => some (v :: rest)

/-- ClassDefFormat 1 decoder `fetchClassLookupFormat1`. -/
def fetchClassLookupFormat1 (buf : List Nat) : PRes ClassDef :=
  if buf.length < 6 then .error (.kerr .invalidGPOSKern)
  else
    match readU16 buf 2, readU16 buf 4 with
    | some startGI, some num =>
      if buf.length < 6 + num * 2 then .error (.kerr .invalidGPOSKern)
      else
        match classValLoop buf 0 num with
        | none => .error .oob
        | some ids => .ok (.fmt1 startGI ids)
    | _, _ => .error .oob

/-- Loop of `fetchClassLookupFormat2` reading `num` class range records
(startGlyphID, endGlyphID, class) at positions `4 + 6*i`. -/
def classRangeLoop (buf : List Nat) : Nat → Nat → Option (List (Nat × Nat × Nat))
  | _, 0 => some []
  | i, k + 1 =>
    match readU16 buf (4 + 6 * i), readU16 buf (4 + 6 * i + 2), readU16 buf (4 + 6 * i + 4) with
    | some s, some e, some t =>
      match classRangeLoop buf (i + 1) k with
      | none => none
      | some rest => some ((s, e, t) :: rest)
    | _, _, _ => none

/-- ClassDefFormat 2 decoder `fetchClassLookupFormat2`. -/
def fetchClassLookupFormat2 (buf : List Nat) : PRes ClassDef :=
  if buf.length < 4 then .error (.kerr .invalidGPOSKern)
  else
    match readU16 buf 2 with
    | none => .error .oob
    | some num =>
      if buf.length < 4 + num * 6 then .error (.kerr .invalidGPOSKern)
      else
        match classRangeLoop buf 0 num with
        | none => .error .oob
        | some recs => .ok (.fmt2 recs)

/-- Function `fetchClassLookup`: dispatch on the class definition format
discriminant; any other format yields `errUnsupportedClassDefFormat`. -/
def fetchClassLookup (buf : List Nat) (offset : Nat) : PRes ClassDef :=
  if buf.length < offset + 2 then .error (.kerr .invalidGPOSKern)
  else
    match readU16 (buf.drop offset) 0 with
    | none => .error .oob
    | some format =>
      if format = 1 then fetchClassLookupFormat1 (buf.drop offset)
      else if format = 2 then fetchClassLookupFormat2 (buf.drop offset)
      else .error (.kerr .unsupportedClassDefFormat)

/-- Loop of `class1.classIDs`: entry `i` maps glyph
`startGlyph + GlyphIndex(i)` (16-bit wrap) to its class id. -/
def classIDsFmt1Loop (start : Nat) : Nat → List Nat → List (Nat × Nat) → List (Nat × Nat)
  | _, [], m => m
  | i, t :: rest, m => classIDsFmt1Loop start (i + 1) rest (mapUpd m ((start + i) % 65536) t)

/-- Insert every glyph of an expanded range with its target class id, in
expansion order. -/
def insertAllClass (m : List (Nat × Nat)) : List Nat → Nat → List (Nat × Nat)
  | [], _ => m
  | g :: rest, t => insertAllClass (mapUpd m g t) rest t

/-- Loop of `class2.classIDs`: each range expanded pointwise via the
same 16-bit loop as coverage ranges. -/
def classIDsFmt2Loop : List (Nat × Nat × Nat) → List (Nat × Nat) → Option (List (Nat × Nat))
  | [], m => some m
  | (s, e, t) :: rest, m =>
    match expandRange s e with
    | none => none
    | some gs => classIDsFmt2Loop rest (insertAllClass m gs t)

/-- The `classIDs()` method of the `class` interface; `none` models a
format-2 expansion loop that never terminates. -/
def ClassDef.classIDs : ClassDef → Option (List (Nat × Nat))
  | .fmt1 start ids => some (classIDsFmt1Loop start 0 ids [])
  | .fmt2 recs => classIDsFmt2Loop recs []

/-! ### Class-based pair source (classKerns) -/

/-- The `classKerns` structure: coverage membership set, the two
glyph-to-class maps, the row stride `numClass2` and the row-major kern
matrix. -/
structure ClassKerns where
  coverage : List Nat
  class1 : List (Nat × Nat)
  class2 : List (Nat × Nat)
  numClass2 : Nat
  kerns : List Int
  deriving DecidableEq

/-- Method `classKerns.KernPair`: no match unless `left` is a coverage member;
otherwise the matrix entry `kerns[class2[right] + class1[left]*numClass2]`,
whose access faults when the index is outside the matrix. -/
def ClassKerns.KernPair (c : ClassKerns) (left right : Nat) : PRes (Int × Bool) :=
  if c.coverage.contains left = false then .ok (0, false)
  else
    let idxa := mapGet c.class1 left
    let idxb := mapGet c.class2 right
    match c.kerns[idxb + idxa * c.numClass2]? with
    | some v => .ok (v, true)
    | none => .error .oob

/-- Loop of `fetchPairPosClass` reading the row-major class matrix:
entry `idx` read at byte position `idx*2`. -/
def matrixLoop (buf : List Nat) : Nat → Nat → Option (List Int)
  | _, 0 => some []
  | idx, k + 1 =>
    match readU16 buf (idx * 2) with
    | none => none
    | some v =>
      match matrixLoop buf (idx + 1) k with
      | none => none
      | some rest => some (toInt16 v :: rest)

/-- Function `fetchPairPosClass`: checks the matrix extent, reads the full
class1Count x class2Count matrix, then builds the class-based source
(evaluating `cdef1.classIDs()` before `cdef2.classIDs()`). -/
def fetchPairPosClass (buf : List Nat) (cov : List Nat) (num1 num2 : Nat)
    (cdef1 cdef2 : ClassDef) : PRes ClassKerns :=
  if buf.length < num1 * num2 * 2 then .error (.kerr .invalidGPOSKern)
  else
    match matrixLoop buf 0 (num1 * num2) with
    | none => .error .oob
    | some kerns =>
      match cdef1.classIDs with
      | none => .error .diverge
      | some m1 =>
        match cdef2.classIDs with
        | none => .error .diverge
        | some m2 => .ok ⟨cov, m1, m2, num2, kerns⟩

/-- Function `parsePairPosFormat2`: header check, value-record-format gate
(anything but X_ADVANCE-only / none contributes an empty source and no
error), then the two class definitions and the matrix. -/
def parsePairPosFormat2 (buf : List Nat) (coverage : List Nat) : PRes ClassKerns :=
  if buf.length < 16 then .error (.kerr .invalidGPOSKern)
  else
    match readU16 buf 4, readU16 buf 6 with
    | some valueFormat1, some valueFormat2 =>
      if valueFormat1 ≠ 4 ∨ valueFormat2 ≠ 0 then .ok ⟨[], [], [], 0, []⟩
      else
        match readU16 buf 8, readU16 buf 10, readU16 buf 12, readU16 buf 14 with
        | some cdef1Offset, some cdef2Offset, some numClass1, some numClass2 =>
          match fetchClassLookup buf cdef1Offset with
          | .error e => .error e
          | .ok cdef1 =>
            match fetchClassLookup buf cdef2Offset with
            | .error e => .error e
            | .ok cdef2 =>
              fetchPairPosClass (buf.drop 16) coverage numClass1 numClass2 cdef1 cdef2
        | _, _, _, _ => .error .oob
    | _, _ => .error .oob

/-! ### Simple pair source and format-1 parser -/

/-- The simple kern source `simpleKerns`, a Go `map[uint32]int16` keyed
by the packed pair `uint32(left)<<16 | uint32(right)`. -/
abbrev SimpleKerns := List (Nat × Int)

/-- Loop of `parsePairPosFormat1` scanning all declared PairSet offsets
(at positions `10 + 2*n`) for the maximum; offsets are unsorted and may
repeat. -/
def maxPairOff (buf : List Nat) : Nat → Nat → Nat → Option Nat
  | _, 0, last => some last
  | n, k + 1, last =>
    match readU16 buf (10 + n * 2) with
    | none => none
    | some pairOffset =>
      maxPairOff buf (n + 1) k (if last < pairOffset then pairOffset else last)

/-- Inner loop of `fetchPairPosGlyph` reading `count` PairValueRecords
of a PairSet at `offset`: record `i` holds the second glyph at
`offset + 2 + 4*i` and its X-advance at `offset + 2 + 4*i + 2`.  These
reads are not bounds-checked in the source. -/
def pairValLoop (glyphs : List Nat) (offset high : Nat) :
    Nat → Nat → SimpleKerns → PRes SimpleKerns
  | _, 0, out => .ok out
  | i, k + 1, out =>
    match readU16 glyphs (offset + 2 + i * 4), readU16 glyphs (offset + 2 + i * 4 + 2) with
    | some b, some v => pairValLoop glyphs offset high (i + 1) k
        (mapUpdI out (high * 65536 + b) (toInt16 v))
    | _, _ => .error .oob

/-- Outer loop of `fetchPairPosGlyph` over the coverage-indexed glyphs:
a coverage index at or past `num` (pairSetCount) aborts with
`errInvalidGPOSKern`; otherwise the glyph's PairSet offset is read and,
after the `offset+1 >= len(glyphs)` check, its records are scanned. -/
def pairPosGlyphLoop (glyphs : List Nat) (num : Nat) :
    Nat → List Nat → SimpleKerns → PRes SimpleKerns
  | _, [], out => .ok out
  | idx, a :: rest, out =>
    if num ≤ idx then .error (.kerr .invalidGPOSKern)
    else
      match readU16 glyphs (10 + idx * 2) with
      | none => .error .oob
      | some offset =>
        if glyphs.length ≤ offset + 1 then .error (.kerr .invalidGPOSKern)
        else
          match readU16 glyphs offset with
          | none => .error .oob
          | some count =>
            match pairValLoop glyphs offset a 0 count out with
            | .error e => .error e
            | .ok out2 => pairPosGlyphLoop glyphs num (idx + 1) rest out2

/-- Function `fetchPairPosGlyph`. -/
def fetchPairPosGlyph (coverage : List Nat) (num : Nat) (glyphs : List Nat)
    (out : SimpleKerns) : PRes SimpleKerns :=
  pairPosGlyphLoop glyphs num 0 coverage out

/-- Function `parsePairPosFormat1`: header check, value-record-format gate
(anything but X_ADVANCE-only / none contributes nothing and no error),
bound of the PairSet-offset array, then extent validation of the
PairSet at the largest offset only, then the per-glyph scan. -/
def parsePairPosFormat1 (buf : List Nat) (coverage : List Nat)
    (out : SimpleKerns) : PRes SimpleKerns :=
  if buf.length < 10 then .error (.kerr .invalidGPOSKern)
  else
    match readU16 buf 4, readU16 buf 6, readU16 buf 8 with
    | some valueFormat1, some valueFormat2, some nPairs =>
      if valueFormat1 ≠ 4 ∨ valueFormat2 ≠ 0 then .ok out
      else
        if buf.length < 10 + nPairs * 2 then .error (.kerr .invalidGPOSKern)
        else
          match maxPairOff buf 0 nPairs 0 with
          | none => .error .oob
          | some lastPairSetOffset =>
            if buf.length < lastPairSetOffset + 2 then .error (.kerr .invalidGPOSKern)
            else
              match readU16 buf lastPairSetOffset with
              | none => .error .oob
              | some pairValueCount =>
                if buf.length < lastPairSetOffset + (2 + pairValueCount * 4) then
                  .error (.kerr .invalidGPOSKern)
                else fetchPairPosGlyph coverage nPairs buf out
    | _, _, _ => .error .oob

/-! ### Kern source composer (TableLayout.parseKern) -/

/-- A slot of the resulting kern set: the simple source or a class-based
source. -/
inductive KernSrc where
  | simple (m : SimpleKerns)
  | classBased (c : ClassKerns)
  deriving DecidableEq

abbrev Kerns := List KernSrc

/-- Modelled from the spec: the lookup records of a positioning layout
table (`TableLayout.Lookups` with fields `Type`, `subtableOffsets` and
`data`, declared outside the provided source files); offsets inside a
lookup's subtable are relative to that subtable's start. -/
structure LayoutLookup where
  lookupType : Nat
  subtableOffsets : List Nat
  data : List Nat
  deriving DecidableEq

structure TableLayout where
  Lookups : List LayoutLookup
  deriving DecidableEq

/-- Body of `parseKern`'s inner loop for one subtable offset: bounds
check, format and coverage-offset reads, coverage decode, then dispatch
on the pair-adjustment format (unknown formats are skipped silently). -/
def parseKernSub (dataBuf : List Nat) (subtableOffset : Nat)
    (simples : SimpleKerns) (classes : List ClassKerns) :
    PRes (SimpleKerns × List ClassKerns) :=
  if dataBuf.length < 4 + subtableOffset then .error (.kerr .invalidGPOSKern)
  else
    let b := dataBuf.drop subtableOffset
    match readU16 b 0, readU16 b 2 with
    | some format, some coverageOffset =>
      match fetchCoverage b coverageOffset with
      | .error e => .error e
      | .ok coverage =>
        if format = 1 then
          match parsePairPosFormat1 b coverage simples with
          | .error e => .error e
          | .ok s2 => .ok (s2, classes)
        else if format = 2 then
          match parsePairPosFormat2 b coverage with
          | .error e => .error e
          | .ok cl => .ok (simples, classes ++ [cl])
        else .ok (simples, classes)
    | _, _ => .error .oob

/-- Loop of `parseKern` over one lookup's subtable offsets. -/
def parseKernSubs (dataBuf : List Nat) :
    List Nat → SimpleKerns → List ClassKerns → PRes (SimpleKerns × List ClassKerns)
  | [], simples, classes => .ok (simples, classes)
  | off :: rest, simples, classes =>
    match parseKernSub dataBuf off simples classes with
    | .error e => .error e
    | .ok (s2, c2) => parseKernSubs dataBuf rest s2 c2

/-- Loop of `parseKern` over the layout table's lookups; only lookup
type 2 (Pair Adjustment) is scanned. -/
def parseKernLookups :
    List LayoutLookup → SimpleKerns → List ClassKerns → PRes (SimpleKerns × List ClassKerns)
  | [], simples, classes => .ok (simples, classes)
  | l :: rest, simples, classes =>
    if l.lookupType = 2 then
      match parseKernSubs l.data l.subtableOffsets simples classes with
      | .error e => .error e
      | .ok (s2, c2) => parseKernLookups rest s2 c2
    else parseKernLookups rest simples classes

/-- Method `TableLayout.parseKern`: scan all pair-adjustment subtables, put the
shared simple source in slot 0, and fail with `errors.New("missing GPOS
kerning information")` exactly when no class-based slot was appended and
the simple source is empty (`len(classes) == 1 && len(simples) == 0`). -/
def TableLayout.parseKern (t : TableLayout) : PRes Kerns :=
  match parseKernLookups t.Lookups [] [] with
  | .error e => .error e
  | .ok (simples, classes) =>
    if classes.length = 0 ∧ simples.length = 0 then
      .error (.kerr .missingKerningInformation)
    else .ok (KernSrc.simple simples :: classes.map KernSrc.classBased)

/-! ### Table directory (Font.Table) -/

/-- A `tableSection`: the cache slot holding the parsed table once
materialized, and the outcome of decoding this section.  Modelled from
the spec: `font.parseTable` (declared outside the provided source files)
is a deterministic decode of the section's bytes, so its outcome is a
fixed datum of the section; table objects are identified by an opaque
numeric identity so that "identical cached object" is expressible. -/
instance : DecidableEq (Except KernError Nat) := fun a b =>
  match a, b with
  | .ok x, .ok y => if h : x = y then .isTrue (by rw [h]) else .isFalse (by simp [h])
  | .error x, .error y => if h : x = y then .isTrue (by rw [h]) else .isFalse (by simp [h])
  | .ok _, .error _ => .isFalse (by simp)
  | .error _, .ok _ => .isFalse (by simp)

structure TableSection where
  table : Option Nat
  parseResult : Except KernError Nat
  deriving DecidableEq

/-- The directory's tag-to-section mapping (keys unique). -/
abbrev FontDir := List (Nat × TableSection)

def lookupSec : FontDir → Nat → Option TableSection
  | [], _ => none
  | (t, s) :: rest, tag => if t = tag then some s else lookupSec rest tag

def setSec : FontDir → Nat → TableSection → FontDir
  | [], _, _ => []
  | (t, s) :: rest, tag, s' =>
    if t = tag then (t, s') :: rest else (t, s) :: setSec rest tag s'

/-- Method `Font.Table`: absent tag fails with `ErrMissingTable`; a filled
cache slot is returned as is; otherwise the section is decoded, a
success is cached, a failure is returned without caching.  The third
component records whether the underlying decode executed. -/
def Font.Table (f : FontDir) (tag : Nat) : Except KernError Nat × FontDir × Bool :=
  match lookupSec f tag with
  | none => (.error .missingTable, f, false)
  | some s =>
    match s.table with
    | some t => (.ok t, f, false)
    | none =>
      match s.parseResult with
      | .ok t => (.ok t, setSec f tag { s with table := some t }, true)
      | .error e => (.error e, f, true)

/-- Repeated calls to `Font.Table` on the same tag: the list of results,
the final directory state and the total number of decode executions. -/
def Font.runTable (f : FontDir) (tag : Nat) : Nat → List (Except KernError Nat) × FontDir × Nat
  | 0 => ([], f, 0)
  | n + 1 =>
    match Font.Table f tag with
    | (r, f2, ex) =>
      match Font.runTable f2 tag n with
      | (rs, f3, c) => (r :: rs, f3, (if ex then 1 else 0) + c)

/-! ### Kerning resolver (Font.KernTable) -/

/-- Method `Font.gposKerning`: fetch the GPOS layout table (any failure of the
directory lookup propagates), then `parseKern` it.  The directory
outcome is passed in, the `parseKern` stage is the embedded one. -/
def Font.gposKerning (gposTable : Except Fail TableLayout) : PRes Kerns :=
  match gposTable with
  | .error e => .error e
  | .ok t => t.parseKern

/-- Method `Font.KernTable`: run the primary attempt; on any non-nil error run
the secondary attempt and return its outcome.  Modelled from the spec:
the legacy `kern`-table attempt (`kernKerning`, whose binary format is
an external collaborator) enters as its outcome. -/
def Font.KernTable (gposRes kernRes : PRes Kerns) (kernFirst : Bool) : PRes Kerns :=
  if kernFirst then
    match kernRes with
    | .ok k => .ok k
    | .error _ => gposRes
  else
    match gposRes with
    | .ok k => .ok k
    | .error _ => kernRes

/-! ### General lemmas about the embedded reads and loops -/

theorem readU16_isSome (buf : List Nat) (p : Nat) (h : p + 2 ≤ buf.length) :
    ∃ v, readU16 buf p = some v := by
  have h1 : p < buf.length := by omega
  have h2 : p + 1 < buf.length := by omega
  exact ⟨buf[p] * 256 + buf[p+1],
    by simp [readU16, List.getElem?_eq_getElem h1, List.getElem?_eq_getElem h2]⟩

theorem covListLoop_isSome (buf : List Nat) :
    ∀ (k i : Nat), 2 + 2 * (i + k) ≤ buf.length → ∃ l, covListLoop buf i k = some l := by
  intro k
  induction k with
  | zero => intro i _; exact ⟨[], rfl⟩
  | succ k ih =>
    intro i h
    obtain ⟨v, hv⟩ := readU16_isSome buf (2 + 2 * i) (by omega)
    obtain ⟨l, hl⟩ := ih (i + 1) (by omega)
    exact ⟨v :: l, by simp [covListLoop, hv, hl]⟩

theorem rangeRecLoop_isSome (buf : List Nat) :
    ∀ (k i : Nat), 2 + 6 * (i + k) ≤ buf.length → ∃ l, rangeRecLoop buf i k = some l := by
  intro k
  induction k with
  | zero => intro i _; exact ⟨[], rfl⟩
  | succ k ih =>
    intro i h
    obtain ⟨s, hs⟩ := readU16_isSome buf (2 + 6 * i) (by omega)
    obtain ⟨e, he⟩ := readU16_isSome buf (2 + 6 * i + 2) (by omega)
    obtain ⟨sc, hsc⟩ := readU16_isSome buf (2 + 6 * i + 4) (by omega)
    obtain ⟨l, hl⟩ := ih (i + 1) (by omega)
    exact ⟨(s, e, sc) :: l, by simp [rangeRecLoop, hs, he, hsc, hl]⟩

theorem classValLoop_isSome (buf : List Nat) :
    ∀ (k i : Nat), 6 + 2 * (i + k) ≤ buf.length → ∃ l, classValLoop buf i k = some l := by
  intro k
  induction k with
  | zero => intro i _; exact ⟨[], rfl⟩
  | succ k ih =>
    intro i h
    obtain ⟨v, hv⟩ := readU16_isSome buf (6 + 2 * i) (by omega)
    obtain ⟨l, hl⟩ := ih (i + 1) (by omega)
    exact ⟨v :: l, by simp [classValLoop, hv, hl]⟩

theorem classRangeLoop_isSome (buf : List Nat) :
    ∀ (k i : Nat), 4 + 6 * (i + k) ≤ buf.length → ∃ l, classRangeLoop buf i k = some l := by
  intro k
  induction k with
  | zero => intro i _; exact ⟨[], rfl⟩
  | succ k ih =>
    intro i h
    obtain ⟨s, hs⟩ := readU16_isSome buf (4 + 6 * i) (by omega)
    obtain ⟨e, he⟩ := readU16_isSome buf (4 + 6 * i + 2) (by omega)
    obtain ⟨t, ht⟩ := readU16_isSome buf (4 + 6 * i + 4) (by omega)
    obtain ⟨l, hl⟩ := ih (i + 1) (by omega)
    exact ⟨(s, e, t) :: l, by simp [classRangeLoop, hs, he, ht, hl]⟩

theorem matrixLoop_isSome (buf : List Nat) :
    ∀ (k i : Nat), (i + k) * 2 ≤ buf.length → ∃ l, matrixLoop buf i k = some l := by
  intro k
  induction k with
  | zero => intro i _; exact ⟨[], rfl⟩
  | succ k ih =>
    intro i h
    obtain ⟨v, hv⟩ := readU16_isSome buf (i * 2) (by omega)
    obtain ⟨l, hl⟩ := ih (i + 1) (by omega)
    exact ⟨toInt16 v :: l, by simp [matrixLoop, hv, hl]⟩

theorem matrixLoop_length (buf : List Nat) :
    ∀ (k i : Nat) (l : List Int), matrixLoop buf i k = some l → l.length = k := by
  intro k
  induction k with
  | zero =>
    intro i l h
    simp only [matrixLoop] at h
    cases h
    rfl
  | succ k ih =>
    intro i l h
    simp only [matrixLoop] at h
    cases hv : readU16 buf (i * 2) with
    | none => rw [hv] at h; cases h
    | some v =>
      rw [hv] at h
      cases hm : matrixLoop buf (i + 1) k with
      | none => rw [hm] at h; cases h
      | some rest =>
        rw [hm] at h
        cases h
        simp [ih (i + 1) rest hm]

/-! ### Claim C1: fallback policy of the kerning resolver -/

/-- A layout whose single pair-adjustment lookup has an out-of-range
subtable offset, so its `parseKern` fails with `errInvalidGPOSKern`. -/
def c1layout : TableLayout := ⟨[⟨2, [0], []⟩]⟩

/-- C1 counterexample: the GPOS attempt fails with the malformed-subtable
error `errInvalidGPOSKern`, yet `KernTable(false)` still consults the
secondary (legacy kern) source and returns its result instead of
returning the error directly. -/
theorem C1_fallback_counterexample :
    TableLayout.parseKern c1layout = .error (.kerr .invalidGPOSKern) ∧
    Font.KernTable (Font.gposKerning (.ok c1layout)) (.ok [KernSrc.simple [(5, 30)]]) false
      = .ok [KernSrc.simple [(5, 30)]] :=
  ⟨rfl, rfl⟩

/-- C1 (amended): `KernTable` falls back to the secondary kerning source
on ANY error from the first attempt — including the mid-decode errors
`errInvalidGPOSKern` and `errUnsupportedClassDefFormat` — not only on
the clean `ErrMissingTable` / missing-kerning-information outcomes. -/
theorem C1_fallback_on_any_error :
    (∀ (gposRes kernRes : PRes Kerns) (e : Fail), gposRes = .error e →
        Font.KernTable gposRes kernRes false = kernRes) ∧
    (∀ (gposRes kernRes : PRes Kerns) (e : Fail), kernRes = .error e →
        Font.KernTable gposRes kernRes true = gposRes) := by
  constructor
  · rintro g k e rfl; rfl
  · rintro g k e rfl; rfl

theorem C1_fallback_on_any_error_witness :
    Font.KernTable (.error (.kerr .invalidGPOSKern)) (.ok [KernSrc.simple []]) false
      = .ok [KernSrc.simple []] :=
  C1_fallback_on_any_error.1 _ _ (.kerr .invalidGPOSKern) rfl

/-! ### Claim C9: unsupported coverage format -/

/-- C9 counterexample: a coverage table with format discriminant 3 fails
with the ad-hoc "unsupported GPOS coverage format" error, which is a
different error value than `errInvalidGPOSKern`. -/
theorem C9_format_error_counterexample :
    fetchCoverage [0, 3] 0 = .error (.kerr (.unsupportedCoverageFormat 3)) ∧
    KernError.unsupportedCoverageFormat 3 ≠ KernError.invalidGPOSKern :=
  ⟨rfl, by decide⟩

/-- C9 (amended): a coverage format discriminant other than 1 or 2 fails
with the distinct `unsupported GPOS coverage format` error (not with
`errInvalidGPOSKern`). -/
theorem C9_unsupported_coverage_format (buf : List Nat) (offset f : Nat)
    (hlen : ¬ buf.length < offset + 2) (hf : readU16 (buf.drop offset) 0 = some f)
    (h1 : f ≠ 1) (h2 : f ≠ 2) :
    fetchCoverage buf offset = .error (.kerr (.unsupportedCoverageFormat f)) := by
  simp only [fetchCoverage, if_neg hlen, hf]
  simp [h1, h2]

theorem C9_unsupported_coverage_format_witness :
    fetchCoverage [0, 5] 0 = .error (.kerr (.unsupportedCoverageFormat 5)) :=
  C9_unsupported_coverage_format [0, 5] 0 5 (by decide) rfl (by decide) (by decide)

/-! ### Claim C5: value-record-format gating -/

/-- A format-2 pair-adjustment subtable whose value-record flags are
(0, 0) — not the supported (X_ADVANCE, none) pair — with a valid empty
coverage table at offset 16. -/
def c5data : List Nat :=
  [0,2, 0,16, 0,0, 0,0, 0,0, 0,0, 0,0, 0,0, 0,1, 0,0]

def c5layout : TableLayout := ⟨[⟨2, [0], c5data⟩]⟩

/-- C5 counterexample: a layout whose only pair-adjustment subtable is a
format-2 subtable gated off by its value-record flags.  Every subtable
is gated off, yet `parseKern` does NOT fail with the
missing-kerning-information error: the gated format-2 subtable appended
an empty class-based source, so the scan returns a kern set with zero
usable pair data. -/
theorem C5_gated_format2_counterexample :
    readU16 c5data 4 = some 0 ∧
    TableLayout.parseKern c5layout
      = .ok [KernSrc.simple [], KernSrc.classBased ⟨[], [], [], 0, []⟩] :=
  ⟨rfl, rfl⟩

/-- C5 (amended): a pair-adjustment subtable whose value-record flags
are not exactly (X-advance for the first glyph, nothing for the second)
is not an error and contributes zero pair entries: format 1 returns the
simple source unchanged, and format 2 returns an empty class-based
source — which is nevertheless appended to the kern set, so a layout
containing such a format-2 subtable does not fail with the
missing-kerning-information error (see the counterexample). -/
theorem C5_value_format_gate (buf cov : List Nat) (s : SimpleKerns) (vf1 vf2 : Nat)
    (h4 : readU16 buf 4 = some vf1) (h6 : readU16 buf 6 = some vf2)
    (hg : vf1 ≠ 4 ∨ vf2 ≠ 0) :
    (¬ buf.length < 10 → parsePairPosFormat1 buf cov s = .ok s) ∧
    (¬ buf.length < 16 → parsePairPosFormat2 buf cov = .ok ⟨[], [], [], 0, []⟩) := by
  constructor
  · intro hl
    have h8 := readU16_isSome buf 8 (by omega)
    obtain ⟨n, hn⟩ := h8
    simp only [parsePairPosFormat1, if_neg hl, h4, h6, hn]
    simp [hg]
  · intro hl
    simp only [parsePairPosFormat2, if_neg hl, h4, h6]
    simp [hg]

theorem C5_value_format_gate_witness :
    parsePairPosFormat2 c5data [] = .ok ⟨[], [], [], 0, []⟩ :=
  (C5_value_format_gate c5data [] [] 0 0 rfl rfl (Or.inl (by decide))).2 (by decide)

/-! ### Claims C7 and C8: table directory caching -/

theorem lookupSec_setSec (f : FontDir) (tag : Nat) (s s' : TableSection)
    (h : lookupSec f tag = some s) : lookupSec (setSec f tag s') tag = some s' := by
  induction f with
  | nil => simp [lookupSec] at h
  | cons p rest ih =>
    obtain ⟨t, sec⟩ := p
    by_cases ht : t = tag
    · subst ht; simp [lookupSec, setSec]
    · simp only [lookupSec, setSec, if_neg ht] at h ⊢
      exact ih h

theorem Font.Table_cached (f : FontDir) (tag : Nat) (s : TableSection) (t : Nat)
    (h1 : lookupSec f tag = some s) (h2 : s.table = some t) :
    Font.Table f tag = (.ok t, f, false) := by
  simp [Font.Table, h1, h2]

theorem Font.runTable_cached (f : FontDir) (tag : Nat) (s : TableSection) (t : Nat)
    (h1 : lookupSec f tag = some s) (h2 : s.table = some t) :
    ∀ n, Font.runTable f tag n = (List.replicate n (.ok t), f, 0) := by
  intro n
  induction n with
  | zero => rfl
  | succ m ih =>
    simp [Font.runTable, Font.Table_cached f tag s t h1 h2, ih, List.replicate_succ]

/-- C7: when the underlying decode of a present tag succeeds, any
sequence of `Table(tag)` calls executes the decode exactly once (on the
first call) and every call returns the identical cached table object. -/
theorem C7_decode_at_most_once (f : FontDir) (tag : Nat) (s : TableSection) (t : Nat) (n : Nat)
    (h1 : lookupSec f tag = some s) (h2 : s.table = none) (h3 : s.parseResult = .ok t)
    (hn : 0 < n) :
    Font.runTable f tag n
      = (List.replicate n (.ok t), setSec f tag { s with table := some t }, 1) := by
  obtain ⟨m, rfl⟩ : ∃ m, n = m + 1 := ⟨n - 1, (Nat.succ_pred_eq_of_pos hn).symm⟩
  have hfirst : Font.Table f tag = (.ok t, setSec f tag { s with table := some t }, true) := by
    simp [Font.Table, h1, h2, h3]
  have hrest := Font.runTable_cached (setSec f tag { s with table := some t }) tag
    { s with table := some t } t (lookupSec_setSec f tag s _ h1) rfl m
  simp [Font.runTable, hfirst, hrest, List.replicate_succ]

theorem C7_decode_at_most_once_witness :
    Font.runTable [(7, ⟨none, .ok 42⟩)] 7 3
      = (List.replicate 3 (.ok 42), [(7, ⟨some 42, .ok 42⟩)], 1) :=
  C7_decode_at_most_once [(7, ⟨none, .ok 42⟩)] 7 ⟨none, .ok 42⟩ 42 3 rfl rfl rfl (by decide)

/-- C8: a `Table(tag)` failure caches nothing and leaves the directory
unchanged — an absent tag fails with `ErrMissingTable` without touching
the state, and a failing decode returns its error, leaves the state
unchanged, and is retried by every subsequent access. -/
theorem C8_no_cache_on_failure :
    (∀ (f : FontDir) (tag : Nat), lookupSec f tag = none →
        Font.Table f tag = (.error .missingTable, f, false)) ∧
    (∀ (f : FontDir) (tag : Nat) (s : TableSection) (e : KernError) (n : Nat),
        lookupSec f tag = some s → s.table = none → s.parseResult = .error e →
        Font.runTable f tag n = (List.replicate n (.error e), f, n)) := by
  constructor
  · intro f tag h
    simp [Font.Table, h]
  · intro f tag s e n h1 h2 h3
    induction n with
    | zero => rfl
    | succ m ih =>
      have htab : Font.Table f tag = (.error e, f, true) := by
        simp [Font.Table, h1, h2, h3]
      simp [Font.runTable, htab, ih, List.replicate_succ]
      omega

theorem C8_no_cache_on_failure_witness :
    Font.Table ([] : FontDir) 3 = (.error .missingTable, [], false) ∧
    Font.runTable [(3, ⟨none, .error .invalidGPOSKern⟩)] 3 2
      = ([.error .invalidGPOSKern, .error .invalidGPOSKern],
         [(3, ⟨none, .error .invalidGPOSKern⟩)], 2) := by
  constructor
  · exact C8_no_cache_on_failure.1 [] 3 rfl
  · have h := C8_no_cache_on_failure.2 [(3, ⟨none, .error .invalidGPOSKern⟩)] 3
      ⟨none, .error .invalidGPOSKern⟩ .invalidGPOSKern 2 rfl rfl rfl
    simpa using h

/-! ### Claims C4 and C6: class-based source invariants and lookup -/

theorem mapGet_lt (m : List (Nat × Nat)) (k n : Nat) (hn : 0 < n)
    (h : ∀ p ∈ m, p.2 < n) : mapGet m k < n := by
  unfold mapGet
  cases hf : m.find? (fun p => p.fst = k) with
  | none => exact hn
  | some p => exact h p (List.mem_of_find?_eq_some hf)

/-- A format-2 pair-adjustment subtable that parses successfully while
its class definition assigns glyph 5 the class id 7, far beyond the
declared class1Count of 1. -/
def c4buf : List Nat :=
  [0,2, 0,0, 0,4, 0,0, 0,18, 0,26, 0,1, 0,1, 255,236, 0,1, 0,5, 0,1, 0,7, 0,1, 0,9, 0,0]

/-- C4 counterexample: the parse succeeds, yet the class1 map holds the
value 7 with class1Count = 1, and for the glyph pair (5, 9) the matrix
index `class2[right] + class1[left]*numClass2` = 7 is NOT within the
kerns array (which has a single entry). -/
theorem C4_class_bounds_counterexample :
    parsePairPosFormat2 c4buf [5] = .ok ⟨[5], [(5, 7)], [], 1, [-20]⟩ ∧
    mapGet [(5, 7)] 5 = 7 ∧
    ¬ (mapGet ([] : List (Nat × Nat)) 9 + mapGet [(5, 7)] 5 * 1 < ([(-20 : Int)]).length) :=
  ⟨rfl, rfl, by decide⟩

/-- C4 (amended): the class-definition decoders store the declared class
ids verbatim, without validating them against class1Count/class2Count;
only when every stored class id is below its declared count (and both
counts are positive) is the matrix index computed by `KernPair`
guaranteed to lie within the kerns array for every glyph pair. -/
theorem C4_bounded_classes_bounded_index (buf cov : List Nat) (n1 n2 : Nat)
    (d1 d2 : ClassDef) (ck : ClassKerns)
    (hok : fetchPairPosClass buf cov n1 n2 d1 d2 = .ok ck)
    (hn1 : 0 < n1) (hn2 : 0 < n2)
    (hb1 : ∀ p ∈ ck.class1, p.2 < n1) (hb2 : ∀ p ∈ ck.class2, p.2 < n2) :
    ∀ left right,
      mapGet ck.class2 right + mapGet ck.class1 left * ck.numClass2 < ck.kerns.length := by
  intro l r
  unfold fetchPairPosClass at hok
  split at hok
  · cases hok
  · cases hm : matrixLoop buf 0 (n1 * n2) with
    | none => rw [hm] at hok; cases hok
    | some kerns =>
      rw [hm] at hok
      cases hc1 : d1.classIDs with
      | none => rw [hc1] at hok; cases hok
      | some m1 =>
        rw [hc1] at hok
        cases hc2 : d2.classIDs with
        | none => rw [hc2] at hok; cases hok
        | some m2 =>
          rw [hc2] at hok
          cases hok
          have hlen : kerns.length = n1 * n2 := matrixLoop_length buf (n1 * n2) 0 kerns hm
          have ha : mapGet m1 l < n1 := mapGet_lt m1 l n1 hn1 hb1
          have hb : mapGet m2 r < n2 := mapGet_lt m2 r n2 hn2 hb2
          show mapGet m2 r + mapGet m1 l * n2 < kerns.length
          calc mapGet m2 r + mapGet m1 l * n2
              < n2 + mapGet m1 l * n2 := Nat.add_lt_add_right hb _
            _ = (mapGet m1 l + 1) * n2 := by ring
            _ ≤ n1 * n2 := Nat.mul_le_mul_right _ (Nat.succ_le_of_lt ha)
            _ = kerns.length := hlen.symm

theorem C4_bounded_classes_bounded_index_witness :
    mapGet (⟨[5], [(5, 0)], [], 1, [30]⟩ : ClassKerns).class2 9
      + mapGet (⟨[5], [(5, 0)], [], 1, [30]⟩ : ClassKerns).class1 5
        * (⟨[5], [(5, 0)], [], 1, [30]⟩ : ClassKerns).numClass2
      < (⟨[5], [(5, 0)], [], 1, [30]⟩ : ClassKerns).kerns.length :=
  C4_bounded_classes_bounded_index [0, 30] [5] 1 1 (.fmt1 5 [0]) (.fmt1 9 [])
    ⟨[5], [(5, 0)], [], 1, [30]⟩ rfl (by decide) (by decide)
    (by intro p hp; simp at hp; simp [hp]) (by intro p hp; simp at hp) 5 9

/-- A format-2 pair-adjustment subtable that parses successfully while
assigning glyph 5 the class id 3 against a declared class1Count of 1. -/
def c6buf : List Nat :=
  [0,2, 0,0, 0,4, 0,0, 0,18, 0,26, 0,1, 0,1, 0,50, 0,1, 0,5, 0,1, 0,3, 0,1, 0,9, 0,0]

/-- C6 counterexample: for a successfully parsed class-based source and
a coverage-member left glyph, `KernPair` does not report a match with a
matrix value — the unvalidated class id 3 drives the matrix access out
of the 1-entry kerns array and the lookup faults. -/
theorem C6_kernpair_counterexample :
    parsePairPosFormat2 c6buf [5] = .ok ⟨[5], [(5, 3)], [], 1, [50]⟩ ∧
    ClassKerns.KernPair ⟨[5], [(5, 3)], [], 1, [50]⟩ 5 0 = .error .oob :=
  ⟨rfl, rfl⟩

/-- C6 (amended): `KernPair(left, right)` reports no match when `left`
is not a coverage member; otherwise, provided the matrix index
`class2[right] + class1[left]*numClass2` (absent glyphs defaulting to
class 0) is within the kerns array, it reports a match with that matrix
entry; a source parsed with out-of-bounds class ids instead faults (see
the counterexample). -/
theorem C6_kernpair_semantics :
    (∀ (c : ClassKerns) (left right : Nat), c.coverage.contains left = false →
        c.KernPair left right = .ok (0, false)) ∧
    (∀ (c : ClassKerns) (left right : Nat), c.coverage.contains left = true →
        mapGet c.class2 right + mapGet c.class1 left * c.numClass2 < c.kerns.length →
        c.KernPair left right
          = .ok (c.kerns.getD (mapGet c.class2 right + mapGet c.class1 left * c.numClass2) 0,
              true)) := by
  constructor
  · intro c l r h
    simp only [ClassKerns.KernPair, h, if_pos]
  · intro c l r h hidx
    simp only [ClassKerns.KernPair, h]
    rw [if_neg (by simp)]
    rw [List.getElem?_eq_getElem hidx]
    rw [List.getD_eq_getElem?_getD, List.getElem?_eq_getElem hidx]
    rfl

theorem C6_kernpair_semantics_witness :
    ClassKerns.KernPair ⟨[5], [(5, 0)], [], 1, [-10]⟩ 5 9
      = .ok ((⟨[5], [(5, 0)], [], 1, [-10]⟩ : ClassKerns).kerns.getD
          (mapGet ([] : List (Nat × Nat)) 9 + mapGet [(5, 0)] 5 * 1) 0, true) ∧
    ClassKerns.KernPair ⟨[5], [(5, 0)], [], 1, [-10]⟩ 7 9 = .ok (0, false) :=
  ⟨C6_kernpair_semantics.2 ⟨[5], [(5, 0)], [], 1, [-10]⟩ 5 9 rfl (by decide),
   C6_kernpair_semantics.1 ⟨[5], [(5, 0)], [], 1, [-10]⟩ 7 9 rfl⟩

/-! ### Claim C2: bounds checking of the decoders -/

theorem fetchCoverageList_no_oob (buf : List Nat) : fetchCoverageList buf ≠ .error .oob := by
  unfold fetchCoverageList
  split
  · simp
  · rename_i hlen
    obtain ⟨num, hv⟩ := readU16_isSome buf 0 (by omega)
    simp only [hv]
    split
    · simp
    · rename_i hlen2
      obtain ⟨l, hl⟩ := covListLoop_isSome buf num 0 (by omega)
      simp only [hl]
      simp

theorem fetchCoverageRange_no_oob (buf : List Nat) : fetchCoverageRange buf ≠ .error .oob := by
  unfold fetchCoverageRange
  split
  · simp
  · rename_i hlen
    obtain ⟨num, hv⟩ := readU16_isSome buf 0 (by omega)
    simp only [hv]
    split
    · simp
    · rename_i hlen2
      obtain ⟨l, hl⟩ := rangeRecLoop_isSome buf num 0 (by omega)
      simp only [hl]
      split <;> simp

theorem fetchCoverage_no_oob (buf : List Nat) (offset : Nat) :
    fetchCoverage buf offset ≠ .error .oob := by
  unfold fetchCoverage
  split
  · simp
  · rename_i hlen
    obtain ⟨format, hv⟩ := readU16_isSome (buf.drop offset) 0 (by simp; omega)
    simp only [hv]
    split
    · exact fetchCoverageList_no_oob _
    · split
      · exact fetchCoverageRange_no_oob _
      · simp

theorem fetchClassLookupFormat1_no_oob (buf : List Nat) :
    fetchClassLookupFormat1 buf ≠ .error .oob := by
  unfold fetchClassLookupFormat1
  split
  · simp
  · rename_i hlen
    obtain ⟨s, hs⟩ := readU16_isSome buf 2 (by omega)
    obtain ⟨n, hn⟩ := readU16_isSome buf 4 (by omega)
    simp only [hs, hn]
    split
    · simp
    · rename_i hlen2
      obtain ⟨l, hl⟩ := classValLoop_isSome buf n 0 (by omega)
      simp only [hl]
      simp

theorem fetchClassLookupFormat2_no_oob (buf : List Nat) :
    fetchClassLookupFormat2 buf ≠ .error .oob := by
  unfold fetchClassLookupFormat2
  split
  · simp
  · rename_i hlen
    obtain ⟨num, hv⟩ := readU16_isSome buf 2 (by omega)
    simp only [hv]
    split
    · simp
    · rename_i hlen2
      obtain ⟨l, hl⟩ := classRangeLoop_isSome buf num 0 (by omega)
      simp only [hl]
      simp

theorem fetchClassLookup_no_oob (buf : List Nat) (offset : Nat) :
    fetchClassLookup buf offset ≠ .error .oob := by
  unfold fetchClassLookup
  split
  · simp
  · rename_i hlen
    obtain ⟨format, hv⟩ := readU16_isSome (buf.drop offset) 0 (by simp; omega)
    simp only [hv]
    split
    · exact fetchClassLookupFormat1_no_oob _
    · split
      · exact fetchClassLookupFormat2_no_oob _
      · simp

theorem fetchPairPosClass_no_oob (buf cov : List Nat) (n1 n2 : Nat) (d1 d2 : ClassDef) :
    fetchPairPosClass buf cov n1 n2 d1 d2 ≠ .error .oob := by
  unfold fetchPairPosClass
  split
  · simp
  · rename_i hlen
    obtain ⟨l, hl⟩ := matrixLoop_isSome buf (n1 * n2) 0 (by omega)
    simp only [hl]
    split
    · simp
    · split <;> simp

/-- C2 (amended): within Coverage and ClassDef decoding and the
class-matrix read of a format-2 subtable, every declared count/offset is
checked against the remaining buffer length before the read, so these
decoders never perform an out-of-bounds access — they fail cleanly
instead.  The guarantee does NOT extend to every PairSet of a format-1
subtable (only the PairSet at the largest declared offset is validated;
see the counterexample). -/
theorem C2_decoders_bounds_checked :
    (∀ (buf : List Nat) (offset : Nat), fetchCoverage buf offset ≠ .error .oob) ∧
    (∀ (buf : List Nat) (offset : Nat), fetchClassLookup buf offset ≠ .error .oob) ∧
    (∀ (buf cov : List Nat) (n1 n2 : Nat) (d1 d2 : ClassDef),
        fetchPairPosClass buf cov n1 n2 d1 d2 ≠ .error .oob) :=
  ⟨fetchCoverage_no_oob, fetchClassLookup_no_oob, fetchPairPosClass_no_oob⟩

theorem C2_decoders_bounds_checked_witness :
    fetchCoverage [] 0 ≠ .error .oob :=
  C2_decoders_bounds_checked.1 [] 0

/-- A format-1 pair-adjustment subtable with two PairSets: the one at
the largest offset (20) is valid and empty, while the earlier one at
offset 14 declares 2 records although only one fits in the buffer. -/
def c2buf : List Nat :=
  [0,1, 0,0, 0,4, 0,0, 0,2, 0,14, 0,20, 0,2, 0,0, 0,0, 0,0]

/-- C2 counterexample: the declared record count of the PairSet at the
non-maximal offset implies a read past the end of the buffer, and the
parse performs that out-of-bounds access instead of returning
`errInvalidGPOSKern`. -/
theorem C2_pairset_oob_counterexample :
    parsePairPosFormat1 c2buf [0] [] = .error .oob ∧
    Fail.oob ≠ Fail.kerr .invalidGPOSKern :=
  ⟨rfl, by decide⟩

/-! ### Claim C10: coverage longer than the PairSet-offset array -/

theorem pairValLoop_ok_or_oob (glyphs : List Nat) (offset high : Nat) :
    ∀ (k i : Nat) (out : SimpleKerns),
      (∃ out2, pairValLoop glyphs offset high i k out = .ok out2) ∨
      pairValLoop glyphs offset high i k out = .error .oob := by
  intro k
  induction k with
  | zero => intro i out; exact Or.inl ⟨out, rfl⟩
  | succ k ih =>
    intro i out
    unfold pairValLoop
    cases hb : readU16 glyphs (offset + 2 + i * 4) with
    | none => right; simp [hb]
    | some b =>
      cases hv : readU16 glyphs (offset + 2 + i * 4 + 2) with
      | none => right; simp [hb, hv]
      | some v =>
        simp only [hb, hv]
        exact ih (i + 1) (mapUpdI out (high * 65536 + b) (toInt16 v))

theorem pairPosGlyphLoop_never_ok (glyphs : List Nat) (num : Nat) :
    ∀ (cov : List Nat) (idx : Nat) (out : SimpleKerns),
      idx ≤ num → num < idx + cov.length →
      pairPosGlyphLoop glyphs num idx cov out = .error (.kerr .invalidGPOSKern) ∨
      pairPosGlyphLoop glyphs num idx cov out = .error .oob := by
  intro cov
  induction cov with
  | nil => intro idx out h1 h2; simp at h2; omega
  | cons a rest ih =>
    intro idx out h1 h2
    by_cases hi : num ≤ idx
    · left
      simp [pairPosGlyphLoop, hi]
    · unfold pairPosGlyphLoop
      rw [if_neg hi]
      cases ho : readU16 glyphs (10 + idx * 2) with
      | none => right; simp [ho]
      | some offset =>
        simp only [ho]
        split
        · left; rfl
        · cases hc : readU16 glyphs offset with
          | none => right; simp [hc]
          | some count =>
            simp only [hc]
            rcases pairValLoop_ok_or_oob glyphs offset a count 0 out with ⟨out2, hok⟩ | herr
            · simp only [hok]
              exact ih (idx + 1) out2 (by omega) (by simp at h2 ⊢; omega)
            · right; simp [herr]

/-- C10 (amended): when the decoded coverage enumerates more glyphs than
the declared pairSetCount, `fetchPairPosGlyph` never succeeds: the
coverage index is compared against pairSetCount before the PairSet
offset array is read, so the scan stops with `errInvalidGPOSKern` at
index pairSetCount — unless the unchecked record scan of an earlier
covered glyph's PairSet faults first (see the counterexample). -/
theorem C10_surplus_coverage_never_ok (coverage : List Nat) (num : Nat)
    (glyphs : List Nat) (out : SimpleKerns) (h : num < coverage.length) :
    fetchPairPosGlyph coverage num glyphs out = .error (.kerr .invalidGPOSKern) ∨
    fetchPairPosGlyph coverage num glyphs out = .error .oob :=
  pairPosGlyphLoop_never_ok glyphs num coverage 0 out (Nat.zero_le _) (by omega)

theorem C10_surplus_coverage_never_ok_witness :
    fetchPairPosGlyph [9] 0 [] [] = .error (.kerr .invalidGPOSKern) ∨
    fetchPairPosGlyph [9] 0 [] [] = .error .oob :=
  C10_surplus_coverage_never_ok [9] 0 [] [] (by decide)

/-- A format-1 subtable whose PairSet at the non-maximal offset 14
declares more records than the buffer holds, together with a coverage
of 3 glyphs against a declared pairSetCount of 2. -/
def c10buf : List Nat :=
  [0,1, 0,0, 0,4, 0,0, 0,2, 0,14, 0,20, 0,2, 0,1, 0,7, 0,0]

/-- C10 counterexample: the coverage enumerates 3 glyphs while
pairSetCount is 2, and parsing does NOT fail with `errInvalidGPOSKern`:
the malformed PairSet of the first covered glyph drives an out-of-bounds
access before the surplus coverage entry is reached. -/
theorem C10_earlier_pairset_oob_counterexample :
    readU16 c10buf 8 = some 2 ∧ ([0, 1, 2] : List Nat).length = 3 ∧
    parsePairPosFormat1 c10buf [0, 1, 2] [] = .error .oob :=
  ⟨rfl, rfl, rfl⟩

/-! ### Claim C3: termination of the range-expansion loops -/

theorem expandRangeAux_max_none : ∀ (fuel i : Nat), i ≤ 65535 →
    expandRangeAux fuel i 65535 = none := by
  intro fuel
  induction fuel with
  | zero => intro i _; rfl
  | succ fuel ih =>
    intro i hi
    unfold expandRangeAux
    rw [if_pos hi]
    rw [ih ((i + 1) % 65536) (by omega)]

/-- A coverage table, format 2, holding the single range record
[startGlyphID = 0, endGlyphID = 0xFFFF]. -/
def c3buf : List Nat := [0,2, 0,1, 0,0, 255,255, 0,0]

/-- A range record whose expansion loop diverges makes the whole
coverage list diverge. -/
theorem coverageRangesList_cons_none (s e sc : Nat) (rest : List (Nat × Nat × Nat))
    (he : expandRange s e = none) : coverageRangesList ((s, e, sc) :: rest) = none := by
  unfold coverageRangesList
  rw [he]

/-- Decomposition of `fetchCoverageRange` when a record's expansion
loop never terminates. -/
theorem fetchCoverageRange_diverge (buf : List Nat) (num : Nat)
    (recs : List (Nat × Nat × Nat))
    (hlen : ¬ buf.length < 2) (hr : readU16 buf 0 = some num)
    (hlen2 : ¬ buf.length < 2 + num * 6)
    (hrec : rangeRecLoop buf 0 num = some recs)
    (hcl : coverageRangesList recs = none) :
    fetchCoverageRange buf = .error .diverge := by
  unfold fetchCoverageRange
  simp only [hr, hrec, hcl]
  rw [if_neg hlen, if_neg hlen2]

/-- Dispatch of `fetchCoverage` to the range decoder on format 2. -/
theorem fetchCoverage_fmt2 (buf : List Nat) (offset : Nat)
    (hlen : ¬ buf.length < offset + 2) (hf : readU16 (buf.drop offset) 0 = some 2) :
    fetchCoverage buf offset = fetchCoverageRange ((buf.drop offset).drop 2) := by
  unfold fetchCoverage
  simp only [hf]
  rw [if_neg hlen]
  rw [if_neg (show (2 : Nat) ≠ 1 by decide), if_pos trivial]

/-- C3: the pointwise range expansion does NOT terminate when endGlyphID
is the maximum glyph index 0xFFFF — the 16-bit loop counter wraps to 0
and the condition `i <= cr.end` never fails — so decoding this coverage
table runs forever instead of performing work linear in the buffer
size. -/
theorem C3_range_expansion_diverges :
    expandDiverges 0 65535 ∧ fetchCoverage c3buf 0 = .error .diverge := by
  have hdiv : expandDiverges 0 65535 := fun fuel => expandRangeAux_max_none fuel 0 (by omega)
  refine ⟨hdiv, ?_⟩
  have h1 : coverageRangesList [(0, 65535, 0)] = none :=
    coverageRangesList_cons_none 0 65535 0 [] (hdiv 65536)
  have h3 : fetchCoverageRange ((c3buf.drop 0).drop 2) = .error .diverge :=
    fetchCoverageRange_diverge ((c3buf.drop 0).drop 2) 1 [(0, 65535, 0)]
      (by decide) rfl (by decide) rfl h1
  exact (fetchCoverage_fmt2 c3buf 0 (by decide) rfl).trans h3
